import Mathlib

/-!
# Cirrus speaker-protection session manager (`cirrus_playback.c`)

A shallow embedding of `spkr_prot_start_processing`,
`spkr_prot_stop_processing` and `get_spkr_prot_snd_device`.

* The module-wide `handle` and the audio device it points to are an explicit
  `World`, threaded through every call.
* Every call of an external function that acts on the device (routing,
  snd-device toggles, list surgery, tinyalsa, the mutex, `calloc`/`free`) is
  appended to `World.trace`, in program order.
* Results of external calls are supplied by an `Extern` record, so theorems
  quantify over every outcome of those calls. The only constraint is on
  `calloc`: storage it returns is apart from the records already linked.
* A list node is identified by the address of its record; the usecase list
  is the sequence of its records from head to tail.
* Enumerators declared in headers outside the translated file are fields of
  `platform_consts`; theorems hold for every value of them.
* Calls are sequential: `pthread_mutex_lock` never blocks and is recorded as
  an effect only.
-/

namespace CirrusPlayback

/-! ## Constants of the C library and of tinyalsa -/

/-- Linux `errno` value of the I/O error. -/
def EIO : Int := 5

/-- Linux `errno` value of memory exhaustion. -/
def ENOMEM : Int := 12

/-- Linux `errno` value of a missing device. -/
def ENODEV : Int := 19

/-- Linux `errno` value of an invalid argument. -/
def EINVAL : Int := 22

/-- Largest `int` of the target ABI (32 bits). -/
def INT_MAX : Nat := 2147483647

/-- Flag of tinyalsa that opens a stream in capture direction. -/
def PCM_IN : Nat := 0x10000000

/-- Sample formats of tinyalsa. -/
inductive pcm_format where
  | PCM_FORMAT_S16_LE
  | PCM_FORMAT_S32_LE
  | PCM_FORMAT_S8
  | PCM_FORMAT_S24_LE
  | PCM_FORMAT_S24_3LE
  deriving DecidableEq, Repr

/-- The fields of `struct pcm_config` that the source initialises. -/
structure pcm_config where
  channels : Nat
  rate : Nat
  period_size : Nat
  period_count : Nat
  format : pcm_format
  start_threshold : Nat
  stop_threshold : Nat
  avail_min : Int
  deriving DecidableEq, Repr

/-- Lines 56-65: the capture configuration. -/
def pcm_config_cirrus_tx : pcm_config :=
  { channels := 4
    rate := 48000
    period_size := 256
    period_count := 4
    format := pcm_format.PCM_FORMAT_S16_LE
    start_threshold := 0
    stop_threshold := INT_MAX
    avail_min := 0 }

/-! ## Enumerators taken as parameters -/

/-- Enumerators of `platform.h` and `audio_hw.h` used by the translated file.
Their numeric values are not part of the translated sources. -/
structure platform_consts where
  USECASE_AUDIO_CIRRUS_SPKR_CALIB_TX : Int
  PCM_CAPTURE : Int
  SND_DEVICE_NONE : Int
  SND_DEVICE_IN_CAPTURE_CIRRUS_VI_FEEDBACK : Int
  SND_DEVICE_OUT_SPEAKER : Int
  SND_DEVICE_OUT_SPEAKER_REVERSE : Int
  SND_DEVICE_OUT_SPEAKER_SAFE : Int
  SND_DEVICE_OUT_VOICE_SPEAKER : Int
  SND_DEVICE_OUT_SPEAKER_PROTECTED : Int
  SND_DEVICE_OUT_VOICE_SPEAKER_PROTECTED : Int

/-- The labels of the `switch` in `get_spkr_prot_snd_device` are pairwise
different, as C requires of the labels of one `switch`. -/
def platform_consts.case_labels_distinct (K : platform_consts) : Prop :=
  K.SND_DEVICE_OUT_SPEAKER ≠ K.SND_DEVICE_OUT_SPEAKER_REVERSE ∧
  K.SND_DEVICE_OUT_SPEAKER ≠ K.SND_DEVICE_OUT_SPEAKER_SAFE ∧
  K.SND_DEVICE_OUT_SPEAKER ≠ K.SND_DEVICE_OUT_VOICE_SPEAKER ∧
  K.SND_DEVICE_OUT_SPEAKER_REVERSE ≠ K.SND_DEVICE_OUT_SPEAKER_SAFE ∧
  K.SND_DEVICE_OUT_SPEAKER_REVERSE ≠ K.SND_DEVICE_OUT_VOICE_SPEAKER ∧
  K.SND_DEVICE_OUT_SPEAKER_SAFE ≠ K.SND_DEVICE_OUT_VOICE_SPEAKER

/-- A concrete choice of enumerators, used to evaluate the model. -/
def sample_consts : platform_consts :=
  { USECASE_AUDIO_CIRRUS_SPKR_CALIB_TX := 40
    PCM_CAPTURE := 1
    SND_DEVICE_NONE := 0
    SND_DEVICE_IN_CAPTURE_CIRRUS_VI_FEEDBACK := 90
    SND_DEVICE_OUT_SPEAKER := 2
    SND_DEVICE_OUT_SPEAKER_REVERSE := 4
    SND_DEVICE_OUT_SPEAKER_SAFE := 5
    SND_DEVICE_OUT_VOICE_SPEAKER := 13
    SND_DEVICE_OUT_SPEAKER_PROTECTED := 60
    SND_DEVICE_OUT_VOICE_SPEAKER_PROTECTED := 61 }

/-! ## Data model -/

/-- The fields of `struct audio_usecase` written by the translated file.
`node` is the address of the record: it identifies the list node. -/
structure audio_usecase where
  node : Nat
  id : Int
  type : Int
  in_snd_device : Int
  out_snd_device : Int
  device_list : List Int
  deriving DecidableEq, Repr

/-- The fields of `struct audio_device` read by the translated file. -/
structure audio_device where
  audio_route : Nat
  snd_card : Nat
  usecase_list : List audio_usecase
  deriving DecidableEq, Repr

/-- Lines 50-54. `adev_handle` is `none` for a NULL pointer, `pcm_tx` likewise.
The mutex has no field: it is observed through the trace. -/
structure cirrus_playback_session where
  adev_handle : Option audio_device
  pcm_tx : Option Nat
  deriving DecidableEq, Repr

/-- Addresses of the records linked in a usecase list. -/
def live_nodes (l : List audio_usecase) : List Nat :=
  l.map audio_usecase.node

/-- An address at which no live record is stored. -/
abbrev fresh_addr (live : List Nat) : Type :=
  { a : Nat // a ∉ live }

/-- One call of an external function that acts on the device. -/
inductive Effect where
  | calloc (result : Option Nat)
  | free (node : Nat)
  | audio_route_apply_and_update_path (route : Nat) (name : String)
  | audio_route_reset_path (route : Nat) (name : String)
  | pthread_mutex_lock
  | pthread_mutex_unlock
  | list_add_tail (node : Nat)
  | list_remove (node : Nat)
  | fp_enable_snd_device (snd_device : Int)
  | fp_disable_snd_device (snd_device : Int)
  | fp_enable_audio_route (uc : audio_usecase)
  | fp_disable_audio_route (uc : audio_usecase)
  | pcm_open (card : Nat) (device : Int) (flags : Nat) (config : pcm_config)
  | pcm_start (pcm : Option Nat)
  | pcm_close (pcm : Nat)
  deriving DecidableEq, Repr

/-- The module-wide `handle` together with the effects performed so far. -/
structure World where
  handle : cirrus_playback_session
  trace : List Effect
  deriving DecidableEq, Repr

/-- Results of the external calls: the injected callbacks of lines 41-48,
`calloc`, and tinyalsa. A NULL result is `none`. `calloc` is told the
addresses of the live records and returns NULL or storage apart from them. -/
structure Extern where
  fp_platform_get_snd_device_name : Int → String
  fp_platform_get_pcm_device_id : Int → Int → Int
  fp_get_usecase_from_list : Option audio_device → Int → Option audio_usecase
  calloc : (live : List Nat) → Option (fresh_addr live)
  pcm_open : Nat → Int → Nat → pcm_config → Option Nat
  pcm_is_ready : Nat → Bool
  pcm_start : Option Nat → Int

/-- Append one effect to the trace. -/
def World.emit (w : World) (e : Effect) : World :=
  { w with trace := w.trace ++ [e] }

/-- Assignment to `handle.pcm_tx`. -/
def World.set_pcm_tx (w : World) (p : Option Nat) : World :=
  { w with handle := { w.handle with pcm_tx := p } }

/-- Rewrite of `adev->usecase_list` through the device pointer. -/
def World.update_usecase_list (w : World)
    (f : List audio_usecase → List audio_usecase) : World :=
  let adev := w.handle.adev_handle.map
    (fun d => { d with usecase_list := f d.usecase_list })
  { w with handle := { w.handle with adev_handle := adev } }

/-- The list macro `list_add_tail` on the usecase list: the node goes last. -/
def list_add_tail (l : List audio_usecase) (uc : audio_usecase) :
    List audio_usecase :=
  l ++ [uc]

/-- The list macro `list_remove`: the node at this address is unlinked. A
node is linked at most once, so every element at this address goes. -/
def list_remove (l : List audio_usecase) (node : Nat) : List audio_usecase :=
  l.filter (fun u => u.node != node)

/-- Lines 168-184: the `exit` label of `spkr_prot_start_processing`. -/
def start_exit (K : platform_consts) (uc : audio_usecase) (ret : Int)
    (w : World) : Int × World :=
  let w1 :=
    if ret ≠ 0 then
      let w2 :=
        match w.handle.pcm_tx with
        | some pcm => (w.emit (Effect.pcm_close pcm)).set_pcm_tx none
        | none => w
      let w3 := w2.emit (Effect.fp_disable_audio_route uc)
      let w4 := w3.emit
        (Effect.fp_disable_snd_device K.SND_DEVICE_IN_CAPTURE_CIRRUS_VI_FEEDBACK)
      let w5 := (w4.update_usecase_list (fun l => list_remove l uc.node)).emit
        (Effect.list_remove uc.node)
      w5.emit (Effect.free uc.node)
    else w
  (ret, w1.emit Effect.pthread_mutex_unlock)

/-- Lines 142-166: from the PCM id resolution to the jump to `exit`. -/
def start_stream (K : platform_consts) (E : Extern) (adev : audio_device)
    (uc : audio_usecase) (w : World) : Int × World :=
  let pcm_dev_tx_id := E.fp_platform_get_pcm_device_id uc.id K.PCM_CAPTURE
  if pcm_dev_tx_id < 0 then
    start_exit K uc (- ENODEV) w
  else
    let pcm := E.pcm_open adev.snd_card pcm_dev_tx_id PCM_IN pcm_config_cirrus_tx
    let w1 := (w.emit (Effect.pcm_open adev.snd_card pcm_dev_tx_id PCM_IN
      pcm_config_cirrus_tx)).set_pcm_tx pcm
    if (match pcm with
        | some p => !E.pcm_is_ready p
        | none => false) then
      start_exit K uc (- EIO) w1
    else
      let w2 := w1.emit (Effect.pcm_start pcm)
      if E.pcm_start pcm < 0 then
        start_exit K uc (- EINVAL) w2
      else
        start_exit K uc 0 w2

/-- Lines 102-185. -/
def spkr_prot_start_processing (K : platform_consts) (E : Extern)
    (snd_device : Int) (w : World) : Int × World :=
  match w.handle.adev_handle with
  -- lines 109-112
  | none => (- EINVAL, w)
  | some adev =>
    -- lines 114-118
    match E.fp_get_usecase_from_list (some adev)
        K.USECASE_AUDIO_CIRRUS_SPKR_CALIB_TX with
    | some _ => (- EINVAL, w)
    | none =>
      -- lines 120-124
      match E.calloc (live_nodes adev.usecase_list) with
      | none => (- ENOMEM, w.emit (Effect.calloc none))
      | some mem =>
        let a := mem.val
        let w0 := w.emit (Effect.calloc (some a))
        -- lines 126-129
        let w1 := w0.emit (Effect.audio_route_apply_and_update_path
          adev.audio_route (E.fp_platform_get_snd_device_name snd_device))
        let w2 := w1.emit Effect.pthread_mutex_lock
        -- lines 130-135
        let uc : audio_usecase :=
          { node := a
            id := K.USECASE_AUDIO_CIRRUS_SPKR_CALIB_TX
            type := K.PCM_CAPTURE
            in_snd_device := K.SND_DEVICE_IN_CAPTURE_CIRRUS_VI_FEEDBACK
            out_snd_device := K.SND_DEVICE_NONE
            device_list := [] }
        let w3 := w2.set_pcm_tx none
        -- line 137
        let w4 := (w3.update_usecase_list (fun l => list_add_tail l uc)).emit
          (Effect.list_add_tail a)
        -- lines 139-140
        let w5 := w4.emit
          (Effect.fp_enable_snd_device K.SND_DEVICE_IN_CAPTURE_CIRRUS_VI_FEEDBACK)
        let w6 := w5.emit (Effect.fp_enable_audio_route uc)
        start_stream K E adev uc w6

/-- Lines 187-215. The result is `none` when the body dereferences a NULL
`adev` (line 208). -/
def spkr_prot_stop_processing (K : platform_consts) (E : Extern)
    (snd_device : Int) (w : World) : Option World :=
  let w0 := w.emit Effect.pthread_mutex_lock
  match E.fp_get_usecase_from_list w0.handle.adev_handle
      K.USECASE_AUDIO_CIRRUS_SPKR_CALIB_TX with
  | some uc =>
    let w1 :=
      match w0.handle.pcm_tx with
      | some pcm => (w0.emit (Effect.pcm_close pcm)).set_pcm_tx none
      | none => w0
    let w2 := w1.emit (Effect.fp_disable_audio_route uc)
    let w3 := w2.emit
      (Effect.fp_disable_snd_device K.SND_DEVICE_IN_CAPTURE_CIRRUS_VI_FEEDBACK)
    let w4 := (w3.update_usecase_list (fun l => list_remove l uc.node)).emit
      (Effect.list_remove uc.node)
    let w5 := w4.emit (Effect.free uc.node)
    match w5.handle.adev_handle with
    | none => none
    | some adev =>
      let w6 := w5.emit (Effect.audio_route_reset_path adev.audio_route
        (E.fp_platform_get_snd_device_name snd_device))
      some (w6.emit Effect.pthread_mutex_unlock)
  | none => some (w0.emit Effect.pthread_mutex_unlock)

/-- Lines 221-233. -/
def get_spkr_prot_snd_device (K : platform_consts) (snd_device : Int) : Int :=
  if snd_device = K.SND_DEVICE_OUT_SPEAKER then
    K.SND_DEVICE_OUT_SPEAKER_PROTECTED
  else if snd_device = K.SND_DEVICE_OUT_SPEAKER_REVERSE then
    K.SND_DEVICE_OUT_SPEAKER_PROTECTED
  else if snd_device = K.SND_DEVICE_OUT_SPEAKER_SAFE then
    K.SND_DEVICE_OUT_SPEAKER_SAFE
  else if snd_device = K.SND_DEVICE_OUT_VOICE_SPEAKER then
    K.SND_DEVICE_OUT_VOICE_SPEAKER_PROTECTED
  else
    snd_device

/-! ## Vocabulary of the properties -/

/-- The usecase list reached through the device pointer (empty for NULL). -/
def World.usecases (w : World) : List audio_usecase :=
  match w.handle.adev_handle with
  | some d => d.usecase_list
  | none => []

/-- Number of calibration-capture records in a usecase list. -/
def calib_count (K : platform_consts) (l : List audio_usecase) : Nat :=
  l.countP (fun u => u.id == K.USECASE_AUDIO_CIRRUS_SPKR_CALIB_TX)

/-- The lookup callback searches the list it is given: it returns a record of
that list with the requested id when there is one, and NULL when there is
none. -/
def Extern.faithful_lookup (E : Extern) : Prop :=
  ∀ (d : audio_device) (uc_id : Int),
    match E.fp_get_usecase_from_list (some d) uc_id with
    | some u => u ∈ d.usecase_list ∧ u.id = uc_id
    | none => ∀ u ∈ d.usecase_list, u.id ≠ uc_id

/-- A lookup that walks the list from its head and returns the first record
with the requested id. -/
def get_usecase_from_list (adev : Option audio_device) (uc_id : Int) :
    Option audio_usecase :=
  match adev with
  | some d => d.usecase_list.find? (fun u => u.id == uc_id)
  | none => none

/-- Effects that C10 calls device interaction. -/
def Effect.device_interaction : Effect → Bool
  | Effect.audio_route_apply_and_update_path _ _ => true
  | Effect.audio_route_reset_path _ _ => true
  | Effect.list_add_tail _ => true
  | Effect.list_remove _ => true
  | Effect.fp_enable_snd_device _ => true
  | Effect.fp_disable_snd_device _ => true
  | Effect.fp_enable_audio_route _ => true
  | Effect.fp_disable_audio_route _ => true
  | Effect.pcm_open _ _ _ _ => true
  | Effect.pcm_start _ => true
  | Effect.pcm_close _ => true
  | Effect.calloc _ => false
  | Effect.free _ => false
  | Effect.pthread_mutex_lock => false
  | Effect.pthread_mutex_unlock => false

/-- Replay of a trace against the mutex. `held` says whether the mutex is
held before the trace. The result is `none` when the trace locks a held
mutex, unlocks a free one, or performs a device interaction while the mutex
is free; otherwise it is the state of the mutex after the trace. -/
def under_lock : Bool → List Effect → Option Bool
  | held, [] => some held
  | held, Effect.pthread_mutex_lock :: t =>
    if held then none else under_lock true t
  | held, Effect.pthread_mutex_unlock :: t =>
    if held then under_lock false t else none
  | held, e :: t =>
    if e.device_interaction && !held then none else under_lock held t

/-- One call of the sequential client, with the outcomes of its external
calls. -/
inductive Call where
  | start (E : Extern) (snd_device : Int)
  | stop (E : Extern) (snd_device : Int)

/-- The external outcomes a call runs with. -/
def Call.outcomes : Call → Extern
  | Call.start E _ => E
  | Call.stop E _ => E

/-- Sequential execution of calls, one after the other. -/
def run_calls (K : platform_consts) : List Call → World → Option World
  | [], w => some w
  | Call.start E d :: cs, w =>
    run_calls K cs (spkr_prot_start_processing K E d w).2
  | Call.stop E d :: cs, w =>
    match spkr_prot_stop_processing K E d w with
    | some w1 => run_calls K cs w1
    | none => none

/-- External outcomes for evaluation: the lookup walks the list, the PCM id
is `pcm_id`, allocation yields `alloc`, the stream opens as `opened`, is ready
when `ready`, and starting it returns `started`; an `alloc` that is the
address of a live record yields NULL. -/
def sample_outcomes (alloc : Option Nat) (pcm_id : Int) (opened : Option Nat)
    (ready : Bool) (started : Int) : Extern :=
  { fp_platform_get_snd_device_name := fun _ => "speaker"
    fp_platform_get_pcm_device_id := fun _ _ => pcm_id
    fp_get_usecase_from_list := get_usecase_from_list
    calloc := fun live =>
      match alloc with
      | some a => if h : a ∈ live then none else some ⟨a, h⟩
      | none => none
    pcm_open := fun _ _ _ _ => opened
    pcm_is_ready := fun _ => ready
    pcm_start := fun _ => started }

/-- A world for evaluation: device with route 1 and card 0, the given list
and stream, no effect yet. -/
def sample_world (l : List audio_usecase) (pcm : Option Nat) : World :=
  { handle :=
      { adev_handle := some { audio_route := 1, snd_card := 0, usecase_list := l }
        pcm_tx := pcm }
    trace := [] }

/-- A usecase record for evaluation. -/
def sample_usecase (node : Nat) (id : Int) : audio_usecase :=
  { node := node, id := id, type := 0, in_snd_device := 0, out_snd_device := 0,
    device_list := [] }

/-! ## Theorems -/

/-- C8: `get_spkr_prot_snd_device` sends speaker and reverse-speaker to
protected-speaker, speaker-safe to itself, voice-speaker to
protected-voice-speaker, and every other device to itself. -/
theorem get_spkr_prot_snd_device_table (K : platform_consts)
    (hK : K.case_labels_distinct) :
    get_spkr_prot_snd_device K K.SND_DEVICE_OUT_SPEAKER
        = K.SND_DEVICE_OUT_SPEAKER_PROTECTED ∧
    get_spkr_prot_snd_device K K.SND_DEVICE_OUT_SPEAKER_REVERSE
        = K.SND_DEVICE_OUT_SPEAKER_PROTECTED ∧
    get_spkr_prot_snd_device K K.SND_DEVICE_OUT_SPEAKER_SAFE
        = K.SND_DEVICE_OUT_SPEAKER_SAFE ∧
    get_spkr_prot_snd_device K K.SND_DEVICE_OUT_VOICE_SPEAKER
        = K.SND_DEVICE_OUT_VOICE_SPEAKER_PROTECTED ∧
    ∀ d : Int, d ≠ K.SND_DEVICE_OUT_SPEAKER →
      d ≠ K.SND_DEVICE_OUT_SPEAKER_REVERSE →
      d ≠ K.SND_DEVICE_OUT_SPEAKER_SAFE →
      d ≠ K.SND_DEVICE_OUT_VOICE_SPEAKER →
      get_spkr_prot_snd_device K d = d := by
  obtain ⟨h1, h2, h3, h4, h5, h6⟩ := hK
  refine ⟨?_, ?_, ?_, ?_, ?_⟩
  · simp [get_spkr_prot_snd_device]
  · simp [get_spkr_prot_snd_device]
  · simp [get_spkr_prot_snd_device, Ne.symm h2, Ne.symm h4]
  · simp [get_spkr_prot_snd_device, Ne.symm h3, Ne.symm h5, Ne.symm h6]
  · intro d a b c e
    simp [get_spkr_prot_snd_device, a, b, c, e]

/-- Witness of C8 at the sample enumerators. -/
theorem get_spkr_prot_snd_device_table_witness :
    sample_consts.case_labels_distinct ∧
    get_spkr_prot_snd_device sample_consts 2 = 60 ∧
    get_spkr_prot_snd_device sample_consts 4 = 60 ∧
    get_spkr_prot_snd_device sample_consts 5 = 5 ∧
    get_spkr_prot_snd_device sample_consts 13 = 61 ∧
    get_spkr_prot_snd_device sample_consts 7 = 7 := by
  have hK : sample_consts.case_labels_distinct := by
    simp [platform_consts.case_labels_distinct, sample_consts]
  obtain ⟨h1, h2, h3, h4, h5⟩ := get_spkr_prot_snd_device_table sample_consts hK
  exact ⟨hK, h1, h2, h3, h4,
    h5 7 (by decide) (by decide) (by decide) (by decide)⟩

/-- C1: when the lookup finds no record, allocation succeeds, the PCM id is
not negative, the stream opens ready and starts, `spkr_prot_start_processing`
returns 0, the list gains exactly the calibration record at its tail, and
`pcm_tx` holds the stream opened with `PCM_IN` on the resolved id with the
fixed configuration. -/
theorem start_processing_success (K : platform_consts) (E : Extern)
    (snd_device : Int) (w : World) (adev : audio_device)
    (a : fresh_addr (live_nodes adev.usecase_list)) (p : Nat)
    (hdev : w.handle.adev_handle = some adev)
    (hlook : E.fp_get_usecase_from_list (some adev)
      K.USECASE_AUDIO_CIRRUS_SPKR_CALIB_TX = none)
    (halloc : E.calloc (live_nodes adev.usecase_list) = some a)
    (hid : 0 ≤ E.fp_platform_get_pcm_device_id
      K.USECASE_AUDIO_CIRRUS_SPKR_CALIB_TX K.PCM_CAPTURE)
    (hopen : E.pcm_open adev.snd_card
      (E.fp_platform_get_pcm_device_id K.USECASE_AUDIO_CIRRUS_SPKR_CALIB_TX
        K.PCM_CAPTURE) PCM_IN pcm_config_cirrus_tx = some p)
    (hready : E.pcm_is_ready p = true)
    (hstart : 0 ≤ E.pcm_start (some p)) :
    (spkr_prot_start_processing K E snd_device w).1 = 0 ∧
    (spkr_prot_start_processing K E snd_device w).2.usecases =
      adev.usecase_list ++
        [{ node := a.val
           id := K.USECASE_AUDIO_CIRRUS_SPKR_CALIB_TX
           type := K.PCM_CAPTURE
           in_snd_device := K.SND_DEVICE_IN_CAPTURE_CIRRUS_VI_FEEDBACK
           out_snd_device := K.SND_DEVICE_NONE
           device_list := [] }] ∧
    (spkr_prot_start_processing K E snd_device w).2.handle.pcm_tx = some p ∧
    Effect.pcm_open adev.snd_card
      (E.fp_platform_get_pcm_device_id K.USECASE_AUDIO_CIRRUS_SPKR_CALIB_TX
        K.PCM_CAPTURE) PCM_IN pcm_config_cirrus_tx
      ∈ (spkr_prot_start_processing K E snd_device w).2.trace ∧
    PCM_IN = 0x10000000 ∧
    pcm_config_cirrus_tx =
      { channels := 4, rate := 48000, period_size := 256, period_count := 4,
        format := pcm_format.PCM_FORMAT_S16_LE, start_threshold := 0,
        stop_threshold := 2147483647, avail_min := 0 } := by
  have hid2 : ¬ E.fp_platform_get_pcm_device_id
      K.USECASE_AUDIO_CIRRUS_SPKR_CALIB_TX K.PCM_CAPTURE < 0 := not_lt.mpr hid
  have hstart2 : ¬ E.pcm_start (some p) < 0 := not_lt.mpr hstart
  simp [spkr_prot_start_processing, start_stream, start_exit, hdev, hlook,
    halloc, hid2, hopen, hready, hstart2, World.emit, World.set_pcm_tx,
    World.update_usecase_list, World.usecases, list_add_tail]
  exact ⟨rfl, rfl⟩

/-- Witness of C1: a start that succeeds on an empty list. -/
theorem start_processing_success_witness :
    (spkr_prot_start_processing sample_consts
      (sample_outcomes (some 7) 3 (some 9) true 0) 2 (sample_world [] none)).1 = 0 ∧
    (spkr_prot_start_processing sample_consts
      (sample_outcomes (some 7) 3 (some 9) true 0) 2
      (sample_world [] none)).2.usecases =
      [{ node := 7, id := 40, type := 1, in_snd_device := 90,
         out_snd_device := 0, device_list := [] }] ∧
    (spkr_prot_start_processing sample_consts
      (sample_outcomes (some 7) 3 (some 9) true 0) 2
      (sample_world [] none)).2.handle.pcm_tx = some 9 := by
  have h := start_processing_success sample_consts
    (sample_outcomes (some 7) 3 (some 9) true 0) 2 (sample_world [] none)
    { audio_route := 1, snd_card := 0, usecase_list := [] } ⟨7, by decide⟩ 9
    rfl rfl rfl (by decide) rfl rfl (by decide)
  exact ⟨h.1, h.2.1, h.2.2.1⟩

/-- C3: when the lookup finds a calibration record,
`spkr_prot_start_processing` returns the negative code `-EINVAL` and leaves
the world as it was: session, usecase list and trace are unchanged, so no
effect at all (route, snd-device, PCM, list, mutex) was performed. -/
theorem start_processing_conflict (K : platform_consts) (E : Extern)
    (snd_device : Int) (w : World) (adev : audio_device) (u : audio_usecase)
    (hdev : w.handle.adev_handle = some adev)
    (hlook : E.fp_get_usecase_from_list (some adev)
      K.USECASE_AUDIO_CIRRUS_SPKR_CALIB_TX = some u) :
    spkr_prot_start_processing K E snd_device w = (- EINVAL, w) ∧
    - EINVAL < 0 := by
  refine ⟨?_, by decide⟩
  simp [spkr_prot_start_processing, hdev, hlook]

/-- Witness of C3: a start on a list that already holds the record. -/
theorem start_processing_conflict_witness :
    spkr_prot_start_processing sample_consts
      (sample_outcomes (some 7) 3 (some 9) true 0) 2
      (sample_world [sample_usecase 1 40] (some 5))
      = (- EINVAL, sample_world [sample_usecase 1 40] (some 5)) ∧
    - EINVAL < 0 :=
  start_processing_conflict sample_consts
    (sample_outcomes (some 7) 3 (some 9) true 0) 2
    (sample_world [sample_usecase 1 40] (some 5))
    { audio_route := 1, snd_card := 0, usecase_list := [sample_usecase 1 40] }
    (sample_usecase 1 40) rfl rfl

/-- Unlinking the node that was just added at the tail restores the list,
provided no other node of the list lives at that address. -/
theorem list_remove_add_tail (l : List audio_usecase) (uc : audio_usecase)
    (hfresh : ∀ u ∈ l, u.node ≠ uc.node) :
    list_remove (list_add_tail l uc) uc.node = l := by
  unfold list_remove list_add_tail
  rw [List.filter_append]
  have h1 : l.filter (fun u => u.node != uc.node) = l := by
    apply List.filter_eq_self.mpr
    intro u hu
    simpa using hfresh u hu
  simp [h1]

/-- Storage returned by the allocator is apart from every listed record. -/
theorem fresh_addr_ne (l : List audio_usecase)
    (a : fresh_addr (live_nodes l)) : ∀ u ∈ l, u.node ≠ a.val := by
  intro u hu heq
  apply a.property
  rw [← heq]
  exact List.mem_map_of_mem audio_usecase.node hu

/-- C4: when the lookup finds no record, allocation succeeds and the PCM id
is negative,
`spkr_prot_start_processing` returns `-ENODEV`, opens no stream and leaves
`pcm_tx` NULL, and the device with its usecase list is as before the call. -/
theorem start_processing_no_device (K : platform_consts) (E : Extern)
    (snd_device : Int) (w : World) (adev : audio_device)
    (a : fresh_addr (live_nodes adev.usecase_list))
    (hdev : w.handle.adev_handle = some adev)
    (hlook : E.fp_get_usecase_from_list (some adev)
      K.USECASE_AUDIO_CIRRUS_SPKR_CALIB_TX = none)
    (halloc : E.calloc (live_nodes adev.usecase_list) = some a)
    (hid : E.fp_platform_get_pcm_device_id
      K.USECASE_AUDIO_CIRRUS_SPKR_CALIB_TX K.PCM_CAPTURE < 0) :
    (spkr_prot_start_processing K E snd_device w).1 = - ENODEV ∧
    (spkr_prot_start_processing K E snd_device w).2.handle.pcm_tx = none ∧
    (spkr_prot_start_processing K E snd_device w).2.handle.adev_handle
      = some adev ∧
    (spkr_prot_start_processing K E snd_device w).2.usecases
      = adev.usecase_list ∧
    ∀ c d f g, Effect.pcm_open c d f g ∈
      (spkr_prot_start_processing K E snd_device w).2.trace →
      Effect.pcm_open c d f g ∈ w.trace := by
  have hrem := list_remove_add_tail adev.usecase_list
    { node := a.val
      id := K.USECASE_AUDIO_CIRRUS_SPKR_CALIB_TX
      type := K.PCM_CAPTURE
      in_snd_device := K.SND_DEVICE_IN_CAPTURE_CIRRUS_VI_FEEDBACK
      out_snd_device := K.SND_DEVICE_NONE
      device_list := [] } (fresh_addr_ne adev.usecase_list a)
  have hne : (- ENODEV : Int) ≠ 0 := by decide
  simp only [] at hrem
  simp [spkr_prot_start_processing, start_stream, start_exit, hdev, hlook,
    halloc, hid, hne, World.emit, World.set_pcm_tx,
    World.update_usecase_list, World.usecases, hrem]

/-- Witness of C4: the PCM id resolves to `-1`. -/
theorem start_processing_no_device_witness :
    (spkr_prot_start_processing sample_consts
      (sample_outcomes (some 7) (-1) (some 9) true 0) 2
      (sample_world [sample_usecase 1 3] none)).1 = - ENODEV ∧
    (spkr_prot_start_processing sample_consts
      (sample_outcomes (some 7) (-1) (some 9) true 0) 2
      (sample_world [sample_usecase 1 3] none)).2.usecases
      = [sample_usecase 1 3] := by
  have h := start_processing_no_device sample_consts
    (sample_outcomes (some 7) (-1) (some 9) true 0) 2
    (sample_world [sample_usecase 1 3] none)
    { audio_route := 1, snd_card := 0, usecase_list := [sample_usecase 1 3] } ⟨7, by decide⟩
    rfl rfl rfl (by decide)
  exact ⟨h.1, h.2.2.2.1⟩

/-- C6: when the lookup finds no calibration record,
`spkr_prot_stop_processing` returns normally with the session and the usecase
list unchanged; it only locks and unlocks the mutex. -/
theorem stop_processing_idle (K : platform_consts) (E : Extern)
    (snd_device : Int) (w : World)
    (hlook : E.fp_get_usecase_from_list w.handle.adev_handle
      K.USECASE_AUDIO_CIRRUS_SPKR_CALIB_TX = none) :
    spkr_prot_stop_processing K E snd_device w =
      some { handle := w.handle
             trace := w.trace ++
               [Effect.pthread_mutex_lock, Effect.pthread_mutex_unlock] } := by
  simp [spkr_prot_stop_processing, World.emit, hlook]

/-- Witness of C6: a stop on a list without the calibration record. -/
theorem stop_processing_idle_witness :
    spkr_prot_stop_processing sample_consts
      (sample_outcomes (some 7) 3 (some 9) true 0) 2
      (sample_world [sample_usecase 1 3] (some 5)) =
      some { handle := (sample_world [sample_usecase 1 3] (some 5)).handle
             trace := (sample_world [sample_usecase 1 3] (some 5)).trace ++
               [Effect.pthread_mutex_lock, Effect.pthread_mutex_unlock] } :=
  stop_processing_idle sample_consts
    (sample_outcomes (some 7) 3 (some 9) true 0) 2
    (sample_world [sample_usecase 1 3] (some 5)) (by decide)

/-- C5: when `spkr_prot_start_processing` fails at the stream stage (the
opened stream is not ready, or starting it fails), then on return: the stream
that was opened, if any, has been closed and `pcm_tx` is NULL; after the
enables in the order snd-device then route, the route is disabled and then
the snd-device; the record is unlinked and freed; the mutex is released; and
the device with its usecase list is as before the call. -/
theorem start_processing_stream_failure (K : platform_consts) (E : Extern)
    (snd_device : Int) (w : World) (adev : audio_device)
    (a : fresh_addr (live_nodes adev.usecase_list))
    (pcm : Option Nat) (uc : audio_usecase)
    (hdev : w.handle.adev_handle = some adev)
    (hlook : E.fp_get_usecase_from_list (some adev)
      K.USECASE_AUDIO_CIRRUS_SPKR_CALIB_TX = none)
    (halloc : E.calloc (live_nodes adev.usecase_list) = some a)
    (huc : uc =
      { node := a.val
        id := K.USECASE_AUDIO_CIRRUS_SPKR_CALIB_TX
        type := K.PCM_CAPTURE
        in_snd_device := K.SND_DEVICE_IN_CAPTURE_CIRRUS_VI_FEEDBACK
        out_snd_device := K.SND_DEVICE_NONE
        device_list := [] })
    (hid : 0 ≤ E.fp_platform_get_pcm_device_id
      K.USECASE_AUDIO_CIRRUS_SPKR_CALIB_TX K.PCM_CAPTURE)
    (hopen : E.pcm_open adev.snd_card
      (E.fp_platform_get_pcm_device_id K.USECASE_AUDIO_CIRRUS_SPKR_CALIB_TX
        K.PCM_CAPTURE) PCM_IN pcm_config_cirrus_tx = pcm)
    (hfail : (∃ p, pcm = some p ∧ E.pcm_is_ready p = false) ∨
      E.pcm_start pcm < 0) :
    (spkr_prot_start_processing K E snd_device w).1 ≠ 0 ∧
    (spkr_prot_start_processing K E snd_device w).2.handle.pcm_tx = none ∧
    (spkr_prot_start_processing K E snd_device w).2.handle.adev_handle
      = some adev ∧
    (spkr_prot_start_processing K E snd_device w).2.usecases
      = adev.usecase_list ∧
    ∃ mid, (mid = [] ∨ mid = [Effect.pcm_start pcm]) ∧
      (spkr_prot_start_processing K E snd_device w).2.trace =
        w.trace ++
        [Effect.calloc (some a.val),
         Effect.audio_route_apply_and_update_path adev.audio_route
           (E.fp_platform_get_snd_device_name snd_device),
         Effect.pthread_mutex_lock,
         Effect.list_add_tail a.val,
         Effect.fp_enable_snd_device K.SND_DEVICE_IN_CAPTURE_CIRRUS_VI_FEEDBACK,
         Effect.fp_enable_audio_route uc,
         Effect.pcm_open adev.snd_card
           (E.fp_platform_get_pcm_device_id
             K.USECASE_AUDIO_CIRRUS_SPKR_CALIB_TX K.PCM_CAPTURE)
           PCM_IN pcm_config_cirrus_tx] ++
        mid ++
        (match pcm with
         | some p => [Effect.pcm_close p]
         | none => []) ++
        [Effect.fp_disable_audio_route uc,
         Effect.fp_disable_snd_device K.SND_DEVICE_IN_CAPTURE_CIRRUS_VI_FEEDBACK,
         Effect.list_remove a.val,
         Effect.free a.val,
         Effect.pthread_mutex_unlock] := by
  have hrem := list_remove_add_tail adev.usecase_list uc
    (by rw [huc]; exact fresh_addr_ne adev.usecase_list a)
  rw [huc] at hrem
  simp only [] at hrem
  have hid2 : ¬ E.fp_platform_get_pcm_device_id
      K.USECASE_AUDIO_CIRRUS_SPKR_CALIB_TX K.PCM_CAPTURE < 0 := not_lt.mpr hid
  have hne1 : (- EIO : Int) ≠ 0 := by decide
  have hne2 : (- EINVAL : Int) ≠ 0 := by decide
  subst huc
  cases pcm with
  | none =>
    have hst : E.pcm_start none < 0 := by
      rcases hfail with ⟨p, hp, _⟩ | h
      · cases hp
      · exact h
    simp [spkr_prot_start_processing, start_stream, start_exit, hdev, hlook,
      halloc, hid2, hopen, hst, hne2, World.emit, World.set_pcm_tx,
      World.update_usecase_list, World.usecases, hrem]
  | some p =>
    by_cases hr : E.pcm_is_ready p = true
    · have hst : E.pcm_start (some p) < 0 := by
        rcases hfail with ⟨q, hq, hq2⟩ | h
        · cases hq
          rw [hr] at hq2
          cases hq2
        · exact h
      simp [spkr_prot_start_processing, start_stream, start_exit, hdev, hlook,
        halloc, hid2, hopen, hr, hst, hne2, World.emit, World.set_pcm_tx,
        World.update_usecase_list, World.usecases, hrem]
    · have hr2 : E.pcm_is_ready p = false := by simpa using hr
      simp [spkr_prot_start_processing, start_stream, start_exit, hdev, hlook,
        halloc, hid2, hopen, hr2, hne1, World.emit, World.set_pcm_tx,
        World.update_usecase_list, World.usecases, hrem]

/-- Witness of C5: the stream opens ready and starting it returns `-1`. -/
theorem start_processing_stream_failure_witness :
    (spkr_prot_start_processing sample_consts
      (sample_outcomes (some 7) 3 (some 9) true (-1)) 2
      (sample_world [sample_usecase 1 3] none)).2.handle.pcm_tx = none ∧
    (spkr_prot_start_processing sample_consts
      (sample_outcomes (some 7) 3 (some 9) true (-1)) 2
      (sample_world [sample_usecase 1 3] none)).2.usecases
      = [sample_usecase 1 3] := by
  have h := start_processing_stream_failure sample_consts
    (sample_outcomes (some 7) 3 (some 9) true (-1)) 2
    (sample_world [sample_usecase 1 3] none)
    { audio_route := 1, snd_card := 0, usecase_list := [sample_usecase 1 3] } ⟨7, by decide⟩
    (some 9)
    { node := 7, id := 40, type := 1, in_snd_device := 90, out_snd_device := 0,
      device_list := [] }
    rfl rfl rfl rfl (by decide) rfl
    (Or.inr (by decide))
  exact ⟨h.2.1, h.2.2.2.1⟩

/-- C9, refuted as stated: a stream that opens ready and fails to start makes
`spkr_prot_start_processing` return `-EINVAL`, not `-EIO`. -/
theorem start_processing_start_failure_not_eio :
    (sample_outcomes (some 7) 3 (some 9) true (-1)).pcm_is_ready 9 = true ∧
    (sample_outcomes (some 7) 3 (some 9) true (-1)).pcm_start (some 9) < 0 ∧
    (spkr_prot_start_processing sample_consts
      (sample_outcomes (some 7) 3 (some 9) true (-1)) 2
      (sample_world [] none)).1 = - EINVAL ∧
    (spkr_prot_start_processing sample_consts
      (sample_outcomes (some 7) 3 (some 9) true (-1)) 2
      (sample_world [] none)).1 ≠ - EIO := by
  decide

/-- C9, amended: at the stream stage `spkr_prot_start_processing` returns
`-EIO` when the opened stream is not ready, and `-EINVAL` when the stream
start fails; `-EINVAL` differs from `-EIO` and is also the code returned for
a NULL device handle and for an already listed record. -/
theorem start_processing_stream_codes (K : platform_consts) (E : Extern)
    (snd_device : Int) (w : World) (adev : audio_device)
    (a : fresh_addr (live_nodes adev.usecase_list))
    (pcm : Option Nat)
    (hdev : w.handle.adev_handle = some adev)
    (hlook : E.fp_get_usecase_from_list (some adev)
      K.USECASE_AUDIO_CIRRUS_SPKR_CALIB_TX = none)
    (halloc : E.calloc (live_nodes adev.usecase_list) = some a)
    (hid : 0 ≤ E.fp_platform_get_pcm_device_id
      K.USECASE_AUDIO_CIRRUS_SPKR_CALIB_TX K.PCM_CAPTURE)
    (hopen : E.pcm_open adev.snd_card
      (E.fp_platform_get_pcm_device_id K.USECASE_AUDIO_CIRRUS_SPKR_CALIB_TX
        K.PCM_CAPTURE) PCM_IN pcm_config_cirrus_tx = pcm) :
    ((∃ p, pcm = some p ∧ E.pcm_is_ready p = false) →
      (spkr_prot_start_processing K E snd_device w).1 = - EIO) ∧
    ((¬ ∃ p, pcm = some p ∧ E.pcm_is_ready p = false) →
      E.pcm_start pcm < 0 →
      (spkr_prot_start_processing K E snd_device w).1 = - EINVAL) ∧
    - EINVAL ≠ - EIO ∧
    (∀ w0 : World, w0.handle.adev_handle = none →
      (spkr_prot_start_processing K E snd_device w0).1 = - EINVAL) ∧
    (∀ (w0 : World) (d : audio_device) (u : audio_usecase),
      w0.handle.adev_handle = some d →
      E.fp_get_usecase_from_list (some d)
        K.USECASE_AUDIO_CIRRUS_SPKR_CALIB_TX = some u →
      (spkr_prot_start_processing K E snd_device w0).1 = - EINVAL) := by
  have hid2 : ¬ E.fp_platform_get_pcm_device_id
      K.USECASE_AUDIO_CIRRUS_SPKR_CALIB_TX K.PCM_CAPTURE < 0 := not_lt.mpr hid
  refine ⟨?_, ?_, by decide, ?_, ?_⟩
  · rintro ⟨p, hp, hr⟩
    subst hp
    simp [spkr_prot_start_processing, start_stream, start_exit, hdev, hlook,
      halloc, hid2, hopen, hr]
  · intro hnot hst
    cases pcm with
    | none =>
      simp [spkr_prot_start_processing, start_stream, start_exit, hdev, hlook,
        halloc, hid2, hopen, hst]
    | some p =>
      have hr : E.pcm_is_ready p = true := by
        by_cases hr : E.pcm_is_ready p = true
        · exact hr
        · exact absurd ⟨p, rfl, by simpa using hr⟩ hnot
      simp [spkr_prot_start_processing, start_stream, start_exit, hdev, hlook,
        halloc, hid2, hopen, hr, hst]
  · intro w0 h0
    simp [spkr_prot_start_processing, h0]
  · intro w0 d u h0 hu
    simp [spkr_prot_start_processing, h0, hu]

/-- Witness of C9 amended: both stream-stage failures at sample outcomes. -/
theorem start_processing_stream_codes_witness :
    (spkr_prot_start_processing sample_consts
      (sample_outcomes (some 7) 3 (some 9) false 0) 2
      (sample_world [] none)).1 = - EIO := by
  have h := start_processing_stream_codes sample_consts
    (sample_outcomes (some 7) 3 (some 9) false 0) 2 (sample_world [] none)
    { audio_route := 1, snd_card := 0, usecase_list := [] } ⟨7, by decide⟩ (some 9)
    rfl rfl rfl (by decide) rfl
  exact h.1 ⟨9, rfl, rfl⟩

/-! ### Shape of the two operations on the usecase list -/

/-- What `spkr_prot_start_processing` does to the session, for every outcome
of the external calls: it leaves the session alone (record found, or no
memory), or appends a calibration record, or appends and unlinks it again
with `pcm_tx` NULL. -/
theorem start_processing_shape (K : platform_consts) (E : Extern)
    (snd_device : Int) (w : World) (adev : audio_device)
    (hdev : w.handle.adev_handle = some adev) :
    ((spkr_prot_start_processing K E snd_device w).2.handle = w.handle ∧
      (E.fp_get_usecase_from_list (some adev)
          K.USECASE_AUDIO_CIRRUS_SPKR_CALIB_TX ≠ none ∨ E.calloc (live_nodes adev.usecase_list) = none)) ∨
    (E.fp_get_usecase_from_list (some adev)
        K.USECASE_AUDIO_CIRRUS_SPKR_CALIB_TX = none ∧
      ∃ uc : audio_usecase,
        uc.id = K.USECASE_AUDIO_CIRRUS_SPKR_CALIB_TX ∧
        ((spkr_prot_start_processing K E snd_device w).2.handle.adev_handle =
            some { adev with
              usecase_list := list_add_tail adev.usecase_list uc } ∨
         ((spkr_prot_start_processing K E snd_device w).2.handle.adev_handle =
            some { adev with
              usecase_list :=
                list_remove (list_add_tail adev.usecase_list uc) uc.node } ∧
          (spkr_prot_start_processing K E snd_device w).2.handle.pcm_tx
            = none))) := by
  have hne1 : (- EIO : Int) ≠ 0 := by decide
  have hne2 : (- EINVAL : Int) ≠ 0 := by decide
  have hne3 : (- ENODEV : Int) ≠ 0 := by decide
  cases hlook : E.fp_get_usecase_from_list (some adev)
      K.USECASE_AUDIO_CIRRUS_SPKR_CALIB_TX with
  | some u =>
    left
    simp [spkr_prot_start_processing, hdev, hlook]
  | none =>
    cases halloc : E.calloc (live_nodes adev.usecase_list) with
    | none =>
      left
      simp [spkr_prot_start_processing, hdev, hlook, halloc, World.emit]
    | some a =>
      right
      refine ⟨rfl, { node := a.val
                     id := K.USECASE_AUDIO_CIRRUS_SPKR_CALIB_TX
                     type := K.PCM_CAPTURE
                     in_snd_device := K.SND_DEVICE_IN_CAPTURE_CIRRUS_VI_FEEDBACK
                     out_snd_device := K.SND_DEVICE_NONE
                     device_list := [] }, rfl, ?_⟩
      by_cases hid : E.fp_platform_get_pcm_device_id
          K.USECASE_AUDIO_CIRRUS_SPKR_CALIB_TX K.PCM_CAPTURE < 0
      · right
        simp [spkr_prot_start_processing, start_stream, start_exit, hdev,
          hlook, halloc, hid, hne3, World.emit, World.set_pcm_tx,
          World.update_usecase_list]
      · cases hopen : E.pcm_open adev.snd_card
            (E.fp_platform_get_pcm_device_id
              K.USECASE_AUDIO_CIRRUS_SPKR_CALIB_TX K.PCM_CAPTURE)
            PCM_IN pcm_config_cirrus_tx with
        | none =>
          by_cases hst : E.pcm_start none < 0
          · right
            simp [spkr_prot_start_processing, start_stream, start_exit, hdev,
              hlook, halloc, hid, hopen, hst, hne2, World.emit,
              World.set_pcm_tx, World.update_usecase_list]
          · left
            simp [spkr_prot_start_processing, start_stream, start_exit, hdev,
              hlook, halloc, hid, hopen, hst, World.emit,
              World.set_pcm_tx, World.update_usecase_list]
        | some p =>
          by_cases hr : E.pcm_is_ready p = true
          · by_cases hst : E.pcm_start (some p) < 0
            · right
              simp [spkr_prot_start_processing, start_stream, start_exit,
                hdev, hlook, halloc, hid, hopen, hr, hst, hne2, World.emit,
                World.set_pcm_tx, World.update_usecase_list]
            · left
              simp [spkr_prot_start_processing, start_stream, start_exit,
                hdev, hlook, halloc, hid, hopen, hr, hst, World.emit,
                World.set_pcm_tx, World.update_usecase_list]
          · have hr2 : E.pcm_is_ready p = false := by simpa using hr
            right
            simp [spkr_prot_start_processing, start_stream, start_exit,
              hdev, hlook, halloc, hid, hopen, hr2, hne1, World.emit,
              World.set_pcm_tx, World.update_usecase_list]

/-- What `spkr_prot_stop_processing` does to the session of a non-NULL
device: it returns, and either the lookup found nothing and the session is
untouched, or the found record is unlinked and `pcm_tx` is NULL. -/
theorem stop_processing_shape (K : platform_consts) (E : Extern)
    (snd_device : Int) (w : World) (adev : audio_device)
    (hdev : w.handle.adev_handle = some adev) :
    ∃ w1, spkr_prot_stop_processing K E snd_device w = some w1 ∧
      ((E.fp_get_usecase_from_list (some adev)
            K.USECASE_AUDIO_CIRRUS_SPKR_CALIB_TX = none ∧
          w1.handle = w.handle) ∨
       (∃ u, E.fp_get_usecase_from_list (some adev)
            K.USECASE_AUDIO_CIRRUS_SPKR_CALIB_TX = some u ∧
          w1.handle.adev_handle = some { adev with
            usecase_list := list_remove adev.usecase_list u.node } ∧
          w1.handle.pcm_tx = none)) := by
  cases hlook : E.fp_get_usecase_from_list (some adev)
      K.USECASE_AUDIO_CIRRUS_SPKR_CALIB_TX with
  | none =>
    simp [spkr_prot_stop_processing, hdev, hlook, World.emit]
  | some u =>
    cases hp : w.handle.pcm_tx with
    | none =>
      simp [spkr_prot_stop_processing, hdev, hlook, hp, World.emit,
        World.set_pcm_tx, World.update_usecase_list]
    | some p =>
      simp [spkr_prot_stop_processing, hdev, hlook, hp, World.emit,
        World.set_pcm_tx, World.update_usecase_list]

/-! ### Counting calibration records -/

/-- A list holds no calibration record exactly when the count is zero. -/
theorem calib_count_eq_zero (K : platform_consts) (l : List audio_usecase) :
    calib_count K l = 0 ↔
      ∀ u ∈ l, u.id ≠ K.USECASE_AUDIO_CIRRUS_SPKR_CALIB_TX := by
  unfold calib_count
  rw [List.countP_eq_zero]
  constructor
  · intro h u hu
    simpa using h u hu
  · intro h u hu
    simpa using h u hu

/-- Appending a calibration record raises the count by one. -/
theorem calib_count_add_tail (K : platform_consts) (l : List audio_usecase)
    (uc : audio_usecase)
    (hid : uc.id = K.USECASE_AUDIO_CIRRUS_SPKR_CALIB_TX) :
    calib_count K (list_add_tail l uc) = calib_count K l + 1 := by
  unfold calib_count list_add_tail
  rw [List.countP_append]
  simp [hid]

/-- Unlinking a node never raises the count. -/
theorem calib_count_remove_le (K : platform_consts) (l : List audio_usecase)
    (a : Nat) : calib_count K (list_remove l a) ≤ calib_count K l := by
  unfold calib_count list_remove
  induction l with
  | nil => simp
  | cons x t ih =>
    by_cases hx : x.node = a
    · by_cases hc : x.id = K.USECASE_AUDIO_CIRRUS_SPKR_CALIB_TX
      · simp [List.filter_cons, List.countP_cons, hx, hc]
        omega
      · simp [List.filter_cons, List.countP_cons, hx, hc]
        omega
    · by_cases hc : x.id = K.USECASE_AUDIO_CIRRUS_SPKR_CALIB_TX
      · simp [List.filter_cons, List.countP_cons, hx, hc]
        omega
      · simp [List.filter_cons, List.countP_cons, hx, hc]
        omega

/-- Unlinking a calibration record of the list lowers the count. -/
theorem calib_count_remove_lt (K : platform_consts) (l : List audio_usecase)
    (u : audio_usecase) (hu : u ∈ l)
    (hid : u.id = K.USECASE_AUDIO_CIRRUS_SPKR_CALIB_TX) :
    calib_count K (list_remove l u.node) < calib_count K l := by
  induction l with
  | nil => cases hu
  | cons x t ih =>
    have hle := calib_count_remove_le K t u.node
    unfold calib_count list_remove at hle ih ⊢
    rcases List.mem_cons.mp hu with h | h
    · subst h
      simp [List.filter_cons, List.countP_cons, hid]
      omega
    · have ih2 := ih h
      by_cases hx : x.node = u.node
      · by_cases hc : x.id = K.USECASE_AUDIO_CIRRUS_SPKR_CALIB_TX
        · simp [List.filter_cons, List.countP_cons, hx, hc]
          omega
        · simp [List.filter_cons, List.countP_cons, hx, hc]
          omega
      · by_cases hc : x.id = K.USECASE_AUDIO_CIRRUS_SPKR_CALIB_TX
        · simp [List.filter_cons, List.countP_cons, hx, hc]
          omega
        · simp [List.filter_cons, List.countP_cons, hx, hc]
          omega

/-- A faithful lookup that finds nothing means the count is zero. -/
theorem faithful_none_count (K : platform_consts) (E : Extern)
    (hf : E.faithful_lookup) (adev : audio_device)
    (hlook : E.fp_get_usecase_from_list (some adev)
      K.USECASE_AUDIO_CIRRUS_SPKR_CALIB_TX = none) :
    calib_count K adev.usecase_list = 0 := by
  have h := hf adev K.USECASE_AUDIO_CIRRUS_SPKR_CALIB_TX
  rw [hlook] at h
  exact (calib_count_eq_zero K adev.usecase_list).mpr h

/-- A faithful lookup that finds a record returns a calibration record of
the list. -/
theorem faithful_some_mem (K : platform_consts) (E : Extern)
    (hf : E.faithful_lookup) (adev : audio_device) (u : audio_usecase)
    (hlook : E.fp_get_usecase_from_list (some adev)
      K.USECASE_AUDIO_CIRRUS_SPKR_CALIB_TX = some u) :
    u ∈ adev.usecase_list ∧ u.id = K.USECASE_AUDIO_CIRRUS_SPKR_CALIB_TX := by
  have h := hf adev K.USECASE_AUDIO_CIRRUS_SPKR_CALIB_TX
  rw [hlook] at h
  exact h

/-- The lookup that walks the list is faithful. -/
theorem sample_outcomes_faithful (alloc : Option Nat) (pcm_id : Int)
    (opened : Option Nat) (ready : Bool) (started : Int) :
    (sample_outcomes alloc pcm_id opened ready started).faithful_lookup := by
  intro d uc_id
  show (match d.usecase_list.find? (fun u => u.id == uc_id) with
    | some u => u ∈ d.usecase_list ∧ u.id = uc_id
    | none => ∀ u ∈ d.usecase_list, u.id ≠ uc_id)
  cases h : d.usecase_list.find? (fun u => u.id == uc_id) with
  | none =>
    intro u hu
    have := List.find?_eq_none.mp h u hu
    simpa using this
  | some u =>
    refine ⟨List.mem_of_find?_eq_some h, ?_⟩
    have := List.find?_some h
    simpa using this

/-- One start keeps the bound of one calibration record. -/
theorem start_processing_keeps_bound (K : platform_consts) (E : Extern)
    (snd_device : Int) (w : World) (adev : audio_device)
    (hdev : w.handle.adev_handle = some adev) (hf : E.faithful_lookup)
    (hone : calib_count K adev.usecase_list ≤ 1) :
    ∃ adev1, (spkr_prot_start_processing K E snd_device w).2.handle.adev_handle
        = some adev1 ∧
      calib_count K adev1.usecase_list ≤ 1 := by
  rcases start_processing_shape K E snd_device w adev hdev with
    ⟨hsame, _⟩ | ⟨hlook, uc, hid, hadd | ⟨hrem, _⟩⟩
  · exact ⟨adev, by rw [hsame, hdev], hone⟩
  · have h0 := faithful_none_count K E hf adev hlook
    refine ⟨_, hadd, ?_⟩
    show calib_count K (list_add_tail adev.usecase_list uc) ≤ 1
    rw [calib_count_add_tail K _ uc hid, h0]
  · have h0 := faithful_none_count K E hf adev hlook
    refine ⟨_, hrem, ?_⟩
    show calib_count K
      (list_remove (list_add_tail adev.usecase_list uc) uc.node) ≤ 1
    have h1 := calib_count_remove_le K (list_add_tail adev.usecase_list uc)
      uc.node
    rw [calib_count_add_tail K _ uc hid, h0] at h1
    exact h1

/-- One stop returns and keeps the bound of one calibration record. -/
theorem stop_processing_keeps_bound (K : platform_consts) (E : Extern)
    (snd_device : Int) (w : World) (adev : audio_device)
    (hdev : w.handle.adev_handle = some adev)
    (hone : calib_count K adev.usecase_list ≤ 1) :
    ∃ w1 adev1, spkr_prot_stop_processing K E snd_device w = some w1 ∧
      w1.handle.adev_handle = some adev1 ∧
      calib_count K adev1.usecase_list ≤ 1 := by
  obtain ⟨w1, hw1, h⟩ := stop_processing_shape K E snd_device w adev hdev
  rcases h with ⟨_, hsame⟩ | ⟨u, _, hrem, _⟩
  · exact ⟨w1, adev, hw1, by rw [hsame, hdev], hone⟩
  · refine ⟨w1, _, hw1, hrem, ?_⟩
    show calib_count K (list_remove adev.usecase_list u.node) ≤ 1
    exact le_trans (calib_count_remove_le K adev.usecase_list u.node) hone

/-- C7: from a session with a non-NULL device whose list holds at most one
calibration record, every finite sequence of sequential start and stop
calls, with arbitrary external outcomes and a faithful lookup, runs to the
end and leaves a list that holds at most one calibration record. -/
theorem run_calls_single_record (K : platform_consts) (calls : List Call)
    (w : World) (adev : audio_device)
    (hdev : w.handle.adev_handle = some adev)
    (hone : calib_count K adev.usecase_list ≤ 1)
    (hf : ∀ c ∈ calls, c.outcomes.faithful_lookup) :
    ∃ w1 adev1, run_calls K calls w = some w1 ∧
      w1.handle.adev_handle = some adev1 ∧
      calib_count K adev1.usecase_list ≤ 1 := by
  induction calls generalizing w adev with
  | nil => exact ⟨w, adev, rfl, hdev, hone⟩
  | cons c cs ih =>
    have hfc : c.outcomes.faithful_lookup := hf c (List.mem_cons_self c cs)
    have hfcs : ∀ c1 ∈ cs, c1.outcomes.faithful_lookup :=
      fun c1 h1 => hf c1 (List.mem_cons_of_mem c h1)
    cases c with
    | start E d =>
      obtain ⟨adev1, h1, h2⟩ :=
        start_processing_keeps_bound K E d w adev hdev hfc hone
      simpa [run_calls] using ih _ adev1 h1 h2 hfcs
    | stop E d =>
      obtain ⟨w1, adev1, h0, h1, h2⟩ :=
        stop_processing_keeps_bound K E d w adev hdev hone
      simpa [run_calls, h0] using ih w1 adev1 h1 h2 hfcs

/-- Witness of C7: start, start again, stop, stop again, start, from a list
that already holds the record. -/
theorem run_calls_single_record_witness :
    ∃ w1 adev1,
      run_calls sample_consts
        [Call.start (sample_outcomes (some 7) 3 (some 9) true 0) 2,
         Call.start (sample_outcomes (some 8) 3 (some 9) true 0) 2,
         Call.stop (sample_outcomes none 3 none true 0) 2,
         Call.stop (sample_outcomes none 3 none true 0) 2,
         Call.start (sample_outcomes (some 8) 3 (some 9) true (-1)) 2]
        (sample_world [sample_usecase 1 40] none) = some w1 ∧
      w1.handle.adev_handle = some adev1 ∧
      calib_count sample_consts adev1.usecase_list ≤ 1 :=
  run_calls_single_record sample_consts _ (sample_world [sample_usecase 1 40] none)
    { audio_route := 1, snd_card := 0, usecase_list := [sample_usecase 1 40] }
    rfl (by decide)
    (by
      intro c hc
      simp only [List.mem_cons, List.mem_singleton, List.not_mem_nil,
        or_false] at hc
      rcases hc with h | h | h | h | h <;> subst h <;>
        simp only [Call.outcomes] <;>
        exact sample_outcomes_faithful _ _ _ _ _)

/-- One start keeps the session shape: at most one calibration record, and
`pcm_tx` NULL when there is none. -/
theorem start_processing_keeps_session (K : platform_consts) (E : Extern)
    (snd_device : Int) (w : World) (adev : audio_device)
    (hdev : w.handle.adev_handle = some adev) (hf : E.faithful_lookup)
    (hone : calib_count K adev.usecase_list ≤ 1)
    (hpcm : calib_count K adev.usecase_list = 0 → w.handle.pcm_tx = none) :
    ∃ adev1,
      (spkr_prot_start_processing K E snd_device w).2.handle.adev_handle
        = some adev1 ∧
      calib_count K adev1.usecase_list ≤ 1 ∧
      (calib_count K adev1.usecase_list = 0 →
        (spkr_prot_start_processing K E snd_device w).2.handle.pcm_tx
          = none) := by
  rcases start_processing_shape K E snd_device w adev hdev with
    ⟨hsame, _⟩ | ⟨hlook, uc, hid, hadd | ⟨hrem, hnull⟩⟩
  · exact ⟨adev, by rw [hsame, hdev], hone, by rw [hsame]; exact hpcm⟩
  · have h0 := faithful_none_count K E hf adev hlook
    have h1 : calib_count K (list_add_tail adev.usecase_list uc) = 1 := by
      rw [calib_count_add_tail K _ uc hid, h0]
    refine ⟨_, hadd, ?_, ?_⟩
    · show calib_count K (list_add_tail adev.usecase_list uc) ≤ 1
      omega
    · intro hz
      change calib_count K (list_add_tail adev.usecase_list uc) = 0 at hz
      omega
  · have h0 := faithful_none_count K E hf adev hlook
    have h1 := calib_count_remove_le K
      (list_add_tail adev.usecase_list uc) uc.node
    rw [calib_count_add_tail K _ uc hid, h0] at h1
    exact ⟨_, hrem, h1, fun _ => hnull⟩

/-- One stop returns and keeps the session shape. -/
theorem stop_processing_keeps_session (K : platform_consts) (E : Extern)
    (snd_device : Int) (w : World) (adev : audio_device)
    (hdev : w.handle.adev_handle = some adev)
    (hone : calib_count K adev.usecase_list ≤ 1)
    (hpcm : calib_count K adev.usecase_list = 0 → w.handle.pcm_tx = none) :
    ∃ w1 adev1, spkr_prot_stop_processing K E snd_device w = some w1 ∧
      w1.handle.adev_handle = some adev1 ∧
      calib_count K adev1.usecase_list ≤ 1 ∧
      (calib_count K adev1.usecase_list = 0 → w1.handle.pcm_tx = none) := by
  obtain ⟨w1, hw1, h⟩ := stop_processing_shape K E snd_device w adev hdev
  rcases h with ⟨_, hsame⟩ | ⟨u, _, hrem, hnull⟩
  · exact ⟨w1, adev, hw1, by rw [hsame, hdev], hone, by rw [hsame]; exact hpcm⟩
  · refine ⟨w1, _, hw1, hrem, ?_, fun _ => hnull⟩
    show calib_count K (list_remove adev.usecase_list u.node) ≤ 1
    exact le_trans (calib_count_remove_le K adev.usecase_list u.node) hone

/-- Every state reached by sequential calls from a session of that shape
(for instance a fresh session, whose `pcm_tx` is NULL) has that shape. -/
theorem run_calls_keeps_session (K : platform_consts) (calls : List Call)
    (w : World) (adev : audio_device)
    (hdev : w.handle.adev_handle = some adev)
    (hone : calib_count K adev.usecase_list ≤ 1)
    (hpcm : calib_count K adev.usecase_list = 0 → w.handle.pcm_tx = none)
    (hf : ∀ c ∈ calls, c.outcomes.faithful_lookup) :
    ∃ w1 adev1, run_calls K calls w = some w1 ∧
      w1.handle.adev_handle = some adev1 ∧
      calib_count K adev1.usecase_list ≤ 1 ∧
      (calib_count K adev1.usecase_list = 0 → w1.handle.pcm_tx = none) := by
  induction calls generalizing w adev with
  | nil => exact ⟨w, adev, rfl, hdev, hone, hpcm⟩
  | cons c cs ih =>
    have hfc : c.outcomes.faithful_lookup := hf c (List.mem_cons_self c cs)
    have hfcs : ∀ c1 ∈ cs, c1.outcomes.faithful_lookup :=
      fun c1 h1 => hf c1 (List.mem_cons_of_mem c h1)
    cases c with
    | start E d =>
      obtain ⟨adev1, h1, h2, h3⟩ :=
        start_processing_keeps_session K E d w adev hdev hfc hone hpcm
      simpa [run_calls] using ih _ adev1 h1 h2 h3 hfcs
    | stop E d =>
      obtain ⟨w1, adev1, h0, h1, h2, h3⟩ :=
        stop_processing_keeps_session K E d w adev hdev hone hpcm
      simpa [run_calls, h0] using ih w1 adev1 h1 h2 h3 hfcs

/-- C2, refuted as stated for every session with a non-NULL device: (a) on a
list with two calibration records the start is refused, the stop unlinks
one record, and the other is still listed; (b) with a stream held, no record
listed and no memory, the start returns early, the stop finds nothing, and
`pcm_tx` still holds the stream. The lookup is the faithful list walk. -/
theorem start_then_stop_not_clean :
    (sample_outcomes none 3 none true 0).faithful_lookup ∧
    (spkr_prot_stop_processing sample_consts
      (sample_outcomes none 3 none true 0) 2
      (spkr_prot_start_processing sample_consts
        (sample_outcomes none 3 none true 0) 2
        (sample_world [sample_usecase 1 40, sample_usecase 2 40] none)).2).map
      World.usecases = some [sample_usecase 2 40] ∧
    (spkr_prot_stop_processing sample_consts
      (sample_outcomes none 3 none true 0) 2
      (spkr_prot_start_processing sample_consts
        (sample_outcomes none 3 none true 0) 2
        (sample_world [] (some 5))).2).map
      (fun w => w.handle.pcm_tx) = some (some 5) :=
  ⟨sample_outcomes_faithful _ _ _ _ _, by decide, by decide⟩

/-- C2, amended: for a session with a non-NULL device whose list holds at
most one calibration record and whose `pcm_tx` is NULL when it holds none,
for every outcome of the external calls and faithful lookups, a start
followed by a stop returns, and afterwards the list holds no calibration
record and `pcm_tx` is NULL. -/
theorem start_then_stop_clean (K : platform_consts) (E1 E2 : Extern)
    (d1 d2 : Int) (w : World) (adev : audio_device)
    (hdev : w.handle.adev_handle = some adev)
    (hf1 : E1.faithful_lookup) (hf2 : E2.faithful_lookup)
    (hone : calib_count K adev.usecase_list ≤ 1)
    (hpcm : calib_count K adev.usecase_list = 0 → w.handle.pcm_tx = none) :
    ∃ w2, spkr_prot_stop_processing K E2 d2
        (spkr_prot_start_processing K E1 d1 w).2 = some w2 ∧
      (∀ u ∈ w2.usecases, u.id ≠ K.USECASE_AUDIO_CIRRUS_SPKR_CALIB_TX) ∧
      w2.handle.pcm_tx = none := by
  obtain ⟨adev1, hdev1, hone1, hpcm1⟩ :=
    start_processing_keeps_session K E1 d1 w adev hdev hf1 hone hpcm
  obtain ⟨w2, hw2, h⟩ := stop_processing_shape K E2 d2
    (spkr_prot_start_processing K E1 d1 w).2 adev1 hdev1
  refine ⟨w2, hw2, ?_⟩
  rcases h with ⟨hlook, hsame⟩ | ⟨u, hlook, hrem, hnull⟩
  · have h0 := faithful_none_count K E2 hf2 adev1 hlook
    constructor
    · have hu : w2.usecases = adev1.usecase_list := by
        simp [World.usecases, hsame, hdev1]
      rw [hu]
      exact (calib_count_eq_zero K _).mp h0
    · rw [hsame]
      exact hpcm1 h0
  · obtain ⟨hmem, hid⟩ := faithful_some_mem K E2 hf2 adev1 u hlook
    have hlt := calib_count_remove_lt K adev1.usecase_list u hmem hid
    constructor
    · have hu : w2.usecases = list_remove adev1.usecase_list u.node := by
        simp [World.usecases, hrem]
      rw [hu]
      apply (calib_count_eq_zero K _).mp
      omega
    · exact hnull

/-- Witness of C2 amended: a start that succeeds on an empty list, then a
stop. -/
theorem start_then_stop_clean_witness :
    ∃ w2, spkr_prot_stop_processing sample_consts
        (sample_outcomes none 3 none true 0) 2
        (spkr_prot_start_processing sample_consts
          (sample_outcomes (some 7) 3 (some 9) true 0) 2
          (sample_world [sample_usecase 1 3] none)).2 = some w2 ∧
      (∀ u ∈ w2.usecases, u.id ≠ sample_consts.USECASE_AUDIO_CIRRUS_SPKR_CALIB_TX) ∧
      w2.handle.pcm_tx = none :=
  start_then_stop_clean sample_consts
    (sample_outcomes (some 7) 3 (some 9) true 0)
    (sample_outcomes none 3 none true 0) 2 2
    (sample_world [sample_usecase 1 3] none)
    { audio_route := 1, snd_card := 0, usecase_list := [sample_usecase 1 3] }
    rfl (sample_outcomes_faithful _ _ _ _ _) (sample_outcomes_faithful _ _ _ _ _)
    (by decide) (fun _ => rfl)

/-- C10, refuted as stated: in a successful start the route-path apply, a
device interaction, is the effect right before the first lock of the mutex,
so the replay of the trace against the mutex fails. -/
theorem start_processing_route_apply_unlocked :
    (spkr_prot_start_processing sample_consts
      (sample_outcomes (some 7) 3 (some 9) true 0) 2
      (sample_world [] none)).2.trace.take 3 =
      [Effect.calloc (some 7),
       Effect.audio_route_apply_and_update_path 1 "speaker",
       Effect.pthread_mutex_lock] ∧
    (Effect.audio_route_apply_and_update_path 1 "speaker").device_interaction
      = true ∧
    under_lock false (spkr_prot_start_processing sample_consts
      (sample_outcomes (some 7) 3 (some 9) true 0) 2
      (sample_world [] none)).2.trace = none := by
  decide

/-- C10, amended: a start performs nothing, or only a failed allocation, or
an allocation and the route-path apply followed by a part in which the mutex
is locked before and unlocked after every device interaction and is free at
the end; a stop on a non-NULL device returns, and its whole trace locks the
mutex before and unlocks it after every device interaction and leaves it
free. -/
theorem processing_under_lock (K : platform_consts) (E : Extern)
    (snd_device : Int) (w : World) (adev : audio_device)
    (hdev : w.handle.adev_handle = some adev) :
    (∃ t, (spkr_prot_start_processing K E snd_device w).2.trace
        = w.trace ++ t ∧
      (t = [] ∨ t = [Effect.calloc none] ∨
        ∃ a rest, t = Effect.calloc (some a) ::
          Effect.audio_route_apply_and_update_path adev.audio_route
            (E.fp_platform_get_snd_device_name snd_device) :: rest ∧
          under_lock false rest = some false)) ∧
    (∃ w1 t, spkr_prot_stop_processing K E snd_device w = some w1 ∧
      w1.trace = w.trace ++ t ∧ under_lock false t = some false) ∧
    (∀ w0 : World, w0.handle.adev_handle = none →
      (spkr_prot_start_processing K E snd_device w0).2 = w0) := by
  have hne1 : (- EIO : Int) ≠ 0 := by decide
  have hne2 : (- EINVAL : Int) ≠ 0 := by decide
  have hne3 : (- ENODEV : Int) ≠ 0 := by decide
  refine ⟨?_, ?_, ?_⟩
  · cases hlook : E.fp_get_usecase_from_list (some adev)
        K.USECASE_AUDIO_CIRRUS_SPKR_CALIB_TX with
    | some u =>
      refine ⟨[], ?_, Or.inl rfl⟩
      simp [spkr_prot_start_processing, hdev, hlook]
    | none =>
      cases halloc : E.calloc (live_nodes adev.usecase_list) with
      | none =>
        refine ⟨[Effect.calloc none], ?_, Or.inr (Or.inl rfl)⟩
        simp [spkr_prot_start_processing, hdev, hlook, halloc, World.emit]
      | some a =>
        by_cases hid : E.fp_platform_get_pcm_device_id
            K.USECASE_AUDIO_CIRRUS_SPKR_CALIB_TX K.PCM_CAPTURE < 0
        · simp [spkr_prot_start_processing, start_stream, start_exit, hdev,
            hlook, halloc, hid, hne3, World.emit, World.set_pcm_tx,
            World.update_usecase_list, under_lock, Effect.device_interaction]
          refine ⟨a, _, ⟨rfl, rfl⟩, ?_⟩
          simp [under_lock, Effect.device_interaction]
        · cases hopen : E.pcm_open adev.snd_card
              (E.fp_platform_get_pcm_device_id
                K.USECASE_AUDIO_CIRRUS_SPKR_CALIB_TX K.PCM_CAPTURE)
              PCM_IN pcm_config_cirrus_tx with
          | none =>
            by_cases hst : E.pcm_start none < 0
            · simp [spkr_prot_start_processing, start_stream, start_exit,
                hdev, hlook, halloc, hid, hopen, hst, hne2, World.emit,
                World.set_pcm_tx, World.update_usecase_list, under_lock,
                Effect.device_interaction]
              refine ⟨a, _, ⟨rfl, rfl⟩, ?_⟩
              simp [under_lock, Effect.device_interaction]
            · simp [spkr_prot_start_processing, start_stream, start_exit,
                hdev, hlook, halloc, hid, hopen, hst, World.emit,
                World.set_pcm_tx, World.update_usecase_list, under_lock,
                Effect.device_interaction]
              refine ⟨a, _, ⟨rfl, rfl⟩, ?_⟩
              simp [under_lock, Effect.device_interaction]
          | some p =>
            by_cases hr : E.pcm_is_ready p = true
            · by_cases hst : E.pcm_start (some p) < 0
              · simp [spkr_prot_start_processing, start_stream, start_exit,
                  hdev, hlook, halloc, hid, hopen, hr, hst, hne2, World.emit,
                  World.set_pcm_tx, World.update_usecase_list, under_lock,
                  Effect.device_interaction]
                refine ⟨a, _, ⟨rfl, rfl⟩, ?_⟩
                simp [under_lock, Effect.device_interaction]
              · simp [spkr_prot_start_processing, start_stream, start_exit,
                  hdev, hlook, halloc, hid, hopen, hr, hst, World.emit,
                  World.set_pcm_tx, World.update_usecase_list, under_lock,
                  Effect.device_interaction]
                refine ⟨a, _, ⟨rfl, rfl⟩, ?_⟩
                simp [under_lock, Effect.device_interaction]
            · have hr2 : E.pcm_is_ready p = false := by simpa using hr
              simp [spkr_prot_start_processing, start_stream, start_exit,
                hdev, hlook, halloc, hid, hopen, hr2, hne1, World.emit,
                World.set_pcm_tx, World.update_usecase_list, under_lock,
                Effect.device_interaction]
              refine ⟨a, _, ⟨rfl, rfl⟩, ?_⟩
              simp [under_lock, Effect.device_interaction]
  · cases hlook : E.fp_get_usecase_from_list (some adev)
        K.USECASE_AUDIO_CIRRUS_SPKR_CALIB_TX with
    | none =>
      simp [spkr_prot_stop_processing, hdev, hlook, World.emit, under_lock,
        Effect.device_interaction]
    | some u =>
      cases hp : w.handle.pcm_tx with
      | none =>
        simp [spkr_prot_stop_processing, hdev, hlook, hp, World.emit,
          World.set_pcm_tx, World.update_usecase_list, under_lock,
          Effect.device_interaction]
      | some p =>
        simp [spkr_prot_stop_processing, hdev, hlook, hp, World.emit,
          World.set_pcm_tx, World.update_usecase_list, under_lock,
          Effect.device_interaction]
  · intro w0 h0
    simp [spkr_prot_start_processing, h0]

/-- Witness of C10 amended: a successful start, and a stop, on the sample
device with an empty list. -/
theorem processing_under_lock_witness :
    (∃ t, (spkr_prot_start_processing sample_consts
        (sample_outcomes (some 7) 3 (some 9) true 0) 2
        (sample_world [] none)).2.trace
        = (sample_world [] none).trace ++ t ∧
      (t = [] ∨ t = [Effect.calloc none] ∨
        ∃ a rest, t = Effect.calloc (some a) ::
          Effect.audio_route_apply_and_update_path 1 "speaker" :: rest ∧
          under_lock false rest = some false)) ∧
    (∃ w1 t, spkr_prot_stop_processing sample_consts
        (sample_outcomes (some 7) 3 (some 9) true 0) 2
        (sample_world [] none) = some w1 ∧
      w1.trace = (sample_world [] none).trace ++ t ∧
      under_lock false t = some false) := by
  have h := processing_under_lock sample_consts
    (sample_outcomes (some 7) 3 (some 9) true 0) 2
    (sample_world [] none)
    { audio_route := 1, snd_card := 0, usecase_list := [] }
    rfl
  exact ⟨h.1, h.2.1⟩

end CirrusPlayback
